import Mathlib

/-!
Verification of the `encoder_video_libvpx_vp9` plugin
(`src/source/encoder_video_libvpx_vp9/plugin.py`).

The plugin decides whether video streams of a media file need re-encoding
to VP9 and, if so, builds the ffmpeg argument plan.  Pure Python functions
are embedded as Lean functions; Python exceptions are modelled with
`Except`; dict lookups that may miss are modelled with `Option`.  The base
class `FfmpegStreamMapper` (from `lib.ffmpeg_stream_mapping`) is not part
of the provided sources, so its members are modelled from the spec and
marked as such in their doc comments.
-/

/-- A Python exception that the embedded code can raise. -/
inductive PyError where
  /-- Raised by Python when calling a method such as `lower` on `None`. -/
  | attributeError : PyError
deriving DecidableEq, Repr

/-- Embedding of Python `str.lower` for the ASCII strings that occur in this
plugin (codec names, mode names): each ASCII uppercase letter is mapped to
its lowercase counterpart. -/
def pyLower (s : String) : String :=
  ⟨s.data.map Char.toLower⟩

/-- Normalized view of one probed media stream, as the plugin reads it from
the `stream_info` dict: `stream_info.get('codec_name')` may be absent or
null (`none`), and the stream has a type such as `video` or `audio`. -/
structure StreamInfo where
  codec_name : Option String
  codec_type : String
deriving DecidableEq, Repr

/-- The plugin settings object: the five configuration values of the
`Settings` class (all stored as strings, as in the Python settings dict;
the Python key `cpu-used` is spelled `cpu_used`). -/
structure Settings where
  mode : String
  crf : String
  bitrate : String
  deadline : String
  cpu_used : String
deriving DecidableEq, Repr

/-- The default values of the `Settings.settings` dict in the source. -/
def defaultSettings : Settings :=
  { mode := "average_bitrate"
    crf := "31"
    bitrate := "2M"
    deadline := "good"
    cpu_used := "0" }

/-- Embedding of `StreamMapper.test_stream_needs_processing`
(plugin.py lines 123-126): `stream_info.get('codec_name').lower() in ['vp9']`
returns `False`, otherwise `True`.  When `codec_name` is absent or null the
Python expression calls `lower` on `None` and raises `AttributeError`. -/
def test_stream_needs_processing (stream_info : StreamInfo) : Except PyError Bool :=
  match stream_info.codec_name with
  | none => .error .attributeError
  | some c => if pyLower c ∈ ["vp9"] then .ok false else .ok true

/-- The result dict of `StreamMapper.custom_stream_mapping`: the
`stream_mapping` (stream selector) and `stream_encoding` (encoder)
argument lists for one stream. -/
structure StreamMappingFragment where
  stream_mapping : List String
  stream_encoding : List String
deriving DecidableEq, Repr

/-- Embedding of `StreamMapper.custom_stream_mapping`
(plugin.py lines 128-188).  The settings object that Python constructs
inside the method is passed explicitly.  The initial default assignment of
`stream_encoding` (line 131) survives exactly when the mode matches none of
the five recognized branch guards. -/
def custom_stream_mapping (settings : Settings) (stream_info : StreamInfo)
    (stream_id : Nat) : StreamMappingFragment :=
  let encoder_mode := settings.mode
  let stream_encoding :=
    if encoder_mode = "average_bitrate" then
      ["-c:v:" ++ toString stream_id, "libvpx-vp9",
       "-b:v:" ++ toString stream_id, settings.bitrate,
       "-threads", "8",
       "-row-mt", "1",
       "-deadline", settings.deadline,
       "-cpu-used", settings.cpu_used]
    else if encoder_mode = "constant_quality" then
      ["-c:v:" ++ toString stream_id, "libvpx-vp9",
       "-crf", settings.crf,
       "-b:v:" ++ toString stream_id, "0",
       "-threads", "8",
       "-row-mt", "1",
       "-deadline", settings.deadline,
       "-cpu-used", settings.cpu_used]
    else if encoder_mode = "constrained_quality" then
      ["-c:v:" ++ toString stream_id, "libvpx-vp9",
       "-crf", settings.crf,
       "-b:v:" ++ toString stream_id, settings.bitrate,
       "-threads", "8",
       "-row-mt", "1",
       "-deadline", settings.deadline,
       "-cpu-used", settings.cpu_used]
    else if encoder_mode = "constant_bitrate" then
      ["-c:v:" ++ toString stream_id, "libvpx-vp9",
       "-minrate", settings.bitrate,
       "-maxrate", settings.bitrate,
       "-b:v:" ++ toString stream_id, settings.bitrate,
       "-threads", "8",
       "-row-mt", "1",
       "-deadline", settings.deadline,
       "-cpu-used", settings.cpu_used]
    else if encoder_mode = "lossless" then
      ["-c:v:" ++ toString stream_id, "libvpx-vp9",
       "-lossless", "1",
       "-threads", "8",
       "-row-mt", "1",
       "-deadline", settings.deadline,
       "-cpu-used", settings.cpu_used]
    else
      ["-c:v:" ++ toString stream_id, "libvpx-vp9", "-b:v", "2M"]
  { stream_mapping := ["-map", "0:v:" ++ toString stream_id]
    stream_encoding := stream_encoding }

/-- Modelled from the spec: `FfmpegStreamMapper.streams_need_processing`
from `lib.ffmpeg_stream_mapping`, which is not among the provided sources.
Spec 4.2 and 6: the file needs processing iff any stream of the mapper
type (here `video`) passes `test_stream_needs_processing`.  A Python
exception raised by the per-stream test propagates. -/
def streams_need_processing : List StreamInfo → Except PyError Bool
  | [] => .ok false
  | s :: rest =>
    if s.codec_type = "video" then
      match test_stream_needs_processing s with
      | .error e => .error e
      | .ok true => .ok true
      | .ok false => streams_need_processing rest
    else
      streams_need_processing rest

/-- Modelled from the spec: the selection step of the missing base class.
Spec 4.2 and 4.3: iterate the streams of the mapper type in original
order, pairing each with its ordinal among streams of that type (the id
used for the `v:N` specifiers). -/
def videoStreamsWithIds : List StreamInfo → Nat → List (StreamInfo × Nat)
  | [], _ => []
  | s :: rest, n =>
    if s.codec_type = "video" then
      (s, n) :: videoStreamsWithIds rest (n + 1)
    else
      videoStreamsWithIds rest n

/-- A stream passes the decision predicate without raising. -/
def streamNeedsOk (s : StreamInfo) : Bool :=
  match test_stream_needs_processing s with
  | .ok true => true
  | _ => false

/-- Modelled from the spec: the subset of video streams marked as needing
conversion, in original order (spec 4.3 step 2). -/
def decidedVideoStreams (streams : List StreamInfo) : List (StreamInfo × Nat) :=
  (videoStreamsWithIds streams 0).filter fun p => streamNeedsOk p.1

/-- Modelled from the spec: `FfmpegStreamMapper.get_stream_mapping`,
the concatenation of the `stream_mapping` lists of the fragments of all
decided streams (spec 4.3 step 4). -/
def get_stream_mapping (settings : Settings) (streams : List StreamInfo) : List String :=
  ((decidedVideoStreams streams).map fun p =>
    (custom_stream_mapping settings p.1 p.2).stream_mapping).flatten

/-- Modelled from the spec: `FfmpegStreamMapper.get_stream_encoding`,
the concatenation of the `stream_encoding` lists of the fragments of all
decided streams (spec 4.3 step 4). -/
def get_stream_encoding (settings : Settings) (streams : List StreamInfo) : List String :=
  ((decidedVideoStreams streams).map fun p =>
    (custom_stream_mapping settings p.1 p.2).stream_encoding).flatten

/-- Index of the last occurrence of a character in a character list, or -1
when absent: the embedding of Python `str.rfind` for one character. -/
def pyRfind (cs : List Char) (c : Char) : Int :=
  (List.range cs.length).foldl
    (fun acc i => if cs.getD i ' ' = c then (i : Int) else acc) (-1)

/-- Embedding of Python `os.path.splitext` (posix flavor, `sep` is the
slash, `extsep` the dot): split at the last dot after the last slash,
unless every character between the slash and that dot is itself a dot
(so leading dots of the basename never start an extension). -/
def splitext (p : String) : String × String :=
  let cs := p.data
  let sepIndex := pyRfind cs '/'
  let dotIndex := pyRfind cs '.'
  let canSplit :=
    decide (sepIndex < dotIndex) &&
    (List.range cs.length).any fun i =>
      decide (sepIndex < (i : Int)) && decide ((i : Int) < dotIndex) &&
      decide (cs.getD i '.' ≠ '.')
  if canSplit then
    (⟨cs.take dotIndex.toNat⟩, ⟨cs.drop dotIndex.toNat⟩)
  else
    (p, "")

/-- The `data` dict handed to `on_worker_process`, restricted to the keys
the runner reads or writes. -/
structure WorkerData where
  exec_ffmpeg : Bool
  file_probe : List StreamInfo
  ffmpeg_args : List String
  file_in : String
  file_out : String
  original_file_path : String
deriving DecidableEq, Repr

/-- Embedding of `on_worker_process` (plugin.py lines 221-272).  The host
probe provider (spec 6) is passed as the function `probe`; the settings
read inside `custom_stream_mapping` are passed explicitly.  The runner
first forces `exec_ffmpeg` to false, probes `file_in`, and when some
stream needs processing it sets `exec_ffmpeg`, assembles the ffmpeg
argument list, and rewrites `file_out` to carry the extension of
`file_in` (lines 263-268). -/
def on_worker_process (probe : String → List StreamInfo) (settings : Settings)
    (data : WorkerData) : Except PyError WorkerData :=
  let data1 : WorkerData := { data with exec_ffmpeg := false }
  let abspath := data1.file_in
  match streams_need_processing (probe abspath) with
  | .error e => .error e
  | .ok false => .ok data1
  | .ok true =>
    let data2 : WorkerData := { data1 with exec_ffmpeg := true }
    let args :=
      ["-i", data2.file_in, "-hide_banner", "-loglevel", "info"]
        ++ get_stream_mapping settings (probe abspath)
        ++ get_stream_encoding settings (probe abspath)
    let new_file_out :=
      (splitext data2.file_out).1 ++ (splitext data2.file_in).2
    .ok { data2 with
          ffmpeg_args := args ++ ["-y", new_file_out]
          file_out := new_file_out }

/-- The `data` dict handed to `on_library_management_file_test`, with the
keys documented in the runner docstring. -/
structure LibraryTestData where
  path : String
  issues : List String
  add_file_to_pending_tasks : Bool
deriving DecidableEq, Repr

/-- Embedding of `on_library_management_file_test` (plugin.py lines
191-218): probe the file and, only when some stream needs processing, set
`add_file_to_pending_tasks` to true; otherwise the data is returned
untouched. -/
def on_library_management_file_test (probe : String → List StreamInfo)
    (data : LibraryTestData) : Except PyError LibraryTestData :=
  match streams_need_processing (probe data.path) with
  | .error e => .error e
  | .ok true => .ok { data with add_file_to_pending_tasks := true }
  | .ok false => .ok data

/-- A probe provider returning one h264 video stream for every path. -/
def probeH264 : String → List StreamInfo := fun _ => [⟨some "h264", "video"⟩]

/-- A probe provider returning a mixed-case vp9 video stream and an audio
stream for every path. -/
def probeAllVp9 : String → List StreamInfo :=
  fun _ => [⟨some "Vp9", "video"⟩, ⟨some "aac", "audio"⟩]

/-- A probe provider returning no streams. -/
def probeNone : String → List StreamInfo := fun _ => []

/-- Worker data for a file with input and output extensions. -/
def wdataMovie : WorkerData :=
  { exec_ffmpeg := false, file_probe := [], ffmpeg_args := ["x"],
    file_in := "movie.mkv", file_out := "movie.mp4",
    original_file_path := "movie.mkv" }

/-- Worker data whose input path has no extension. -/
def wdataNoExt : WorkerData :=
  { exec_ffmpeg := false, file_probe := [], ffmpeg_args := ["x"],
    file_in := "movie", file_out := "movie.mp4",
    original_file_path := "movie" }

/-- Worker data used to observe that a true `exec_ffmpeg` input is forced
back to false. -/
def wdataExecTrue : WorkerData :=
  { exec_ffmpeg := true, file_probe := [], ffmpeg_args := ["x"],
    file_in := "movie.mkv", file_out := "movie.mp4",
    original_file_path := "movie.mkv" }

/-- Library-test data with the pending flag initially false. -/
def dataLib : LibraryTestData :=
  { path := "f.mkv", issues := [], add_file_to_pending_tasks := false }

/-- Helper: a stream list whose video streams all carry a codec name that
lowercases to `vp9` is reported as not needing processing. -/
theorem all_vp9_no_processing :
    ∀ l : List StreamInfo,
      (∀ st ∈ l, st.codec_type = "video" →
        ∃ cn, st.codec_name = some cn ∧ pyLower cn = "vp9") →
      streams_need_processing l = .ok false := by
  intro l
  induction l with
  | nil => intro _; rfl
  | cons s rest ih =>
    intro h
    unfold streams_need_processing
    by_cases hv : s.codec_type = "video"
    · obtain ⟨cn, hcn, hlow⟩ := h s (by simp) hv
      have htest : test_stream_needs_processing s = .ok false := by
        unfold test_stream_needs_processing
        rw [hcn]
        simp [hlow]
      rw [if_pos hv, htest]
      exact ih fun st hst => h st (List.mem_cons_of_mem s hst)
    · rw [if_neg hv]
      exact ih fun st hst => h st (List.mem_cons_of_mem s hst)

/-- C1: a stream whose codec name lowercases to vp9 is reported by
`test_stream_needs_processing` as not needing processing, and on a file
whose video streams are all already vp9 the worker returns the data with
`exec_ffmpeg` false and every other key untouched: no transcode command is
assembled. -/
theorem vp9_streams_skip_processing (c t : String)
    (probe : String → List StreamInfo) (s : Settings) (data : WorkerData)
    (hc : pyLower c = "vp9")
    (hall : ∀ st ∈ probe data.file_in, st.codec_type = "video" →
      ∃ cn, st.codec_name = some cn ∧ pyLower cn = "vp9") :
    test_stream_needs_processing ⟨some c, t⟩ = .ok false ∧
    on_worker_process probe s data = .ok { data with exec_ffmpeg := false } := by
  constructor
  · unfold test_stream_needs_processing
    simp [hc]
  · simp only [on_worker_process]
    rw [all_vp9_no_processing (probe data.file_in) hall]

/-- Witness for C1 at a concrete mixed-case vp9 file. -/
theorem vp9_streams_skip_processing_witness :
    pyLower "VP9" = "vp9" ∧
    (∀ st ∈ probeAllVp9 wdataExecTrue.file_in, st.codec_type = "video" →
      ∃ cn, st.codec_name = some cn ∧ pyLower cn = "vp9") ∧
    test_stream_needs_processing ⟨some "VP9", "video"⟩ = .ok false ∧
    on_worker_process probeAllVp9 defaultSettings wdataExecTrue =
      .ok { wdataExecTrue with exec_ffmpeg := false } := by
  have hall : ∀ st ∈ probeAllVp9 wdataExecTrue.file_in, st.codec_type = "video" →
      ∃ cn, st.codec_name = some cn ∧ pyLower cn = "vp9" := by
    intro st hst hv
    simp only [probeAllVp9, List.mem_cons, List.not_mem_nil, or_false] at hst
    rcases hst with h | h
    · exact ⟨"Vp9", by rw [h], by decide⟩
    · rw [h] at hv; exact absurd hv (by decide)
  exact ⟨rfl, hall,
    vp9_streams_skip_processing "VP9" "video" probeAllVp9 defaultSettings
      wdataExecTrue rfl hall⟩

/-- C2: on a stream descriptor with a missing or null codec name the code
raises `AttributeError` (it calls `lower` on `None`) instead of returning
true as the spec requires. -/
theorem missing_codec_name_raises :
    test_stream_needs_processing ⟨none, "video"⟩ = .error PyError.attributeError :=
  rfl

/-- C3: on the h264 video stream with index 0 and the configuration
(constant_quality, crf 30, deadline good, cpu_used 2), the produced
fragment has exactly the expected encoder and stream-selector argument
lists. -/
theorem constant_quality_crf30_exact_fragment :
    custom_stream_mapping ⟨"constant_quality", "30", "2M", "good", "2"⟩
        ⟨some "h264", "video"⟩ 0 =
      { stream_mapping := ["-map", "0:v:0"]
        stream_encoding := ["-c:v:0", "libvpx-vp9", "-crf", "30", "-b:v:0", "0",
          "-threads", "8", "-row-mt", "1", "-deadline", "good", "-cpu-used", "2"] } := by
  decide

/-- C4 counterexample: with the unrecognized mode `bogus`, the emitted
encoder arguments are the four-element default, which differs from the
average_bitrate shape even when the fallback bitrate 2M is substituted for
the configured bitrate. -/
theorem unrecognized_mode_shape_differs :
    (custom_stream_mapping ⟨"bogus", "31", "2M", "good", "0"⟩
        ⟨some "h264", "video"⟩ 0).stream_encoding =
      ["-c:v:0", "libvpx-vp9", "-b:v", "2M"] ∧
    (custom_stream_mapping ⟨"average_bitrate", "31", "2M", "good", "0"⟩
        ⟨some "h264", "video"⟩ 0).stream_encoding =
      ["-c:v:0", "libvpx-vp9", "-b:v:0", "2M", "-threads", "8", "-row-mt", "1",
       "-deadline", "good", "-cpu-used", "0"] ∧
    (custom_stream_mapping ⟨"bogus", "31", "2M", "good", "0"⟩
        ⟨some "h264", "video"⟩ 0).stream_encoding ≠
      (custom_stream_mapping ⟨"average_bitrate", "31", "2M", "good", "0"⟩
        ⟨some "h264", "video"⟩ 0).stream_encoding := by
  decide

/-- C4 amended: for every configuration whose mode is none of the five
recognized modes, custom_stream_mapping emits the initial default encoder
list: the codec pair followed by the bare `-b:v` flag with the hardcoded
2M bitrate, without the threads, row-mt, deadline and cpu-used arguments
of the average_bitrate shape. -/
theorem unrecognized_mode_emits_default (s : Settings) (si : StreamInfo) (i : Nat)
    (h : s.mode ∉ ["average_bitrate", "constant_quality", "constrained_quality",
      "constant_bitrate", "lossless"]) :
    custom_stream_mapping s si i =
      { stream_mapping := ["-map", "0:v:" ++ toString i]
        stream_encoding := ["-c:v:" ++ toString i, "libvpx-vp9", "-b:v", "2M"] } := by
  simp only [List.mem_cons, List.not_mem_nil, or_false, not_or] at h
  obtain ⟨h1, h2, h3, h4, h5⟩ := h
  simp only [custom_stream_mapping, if_neg h1, if_neg h2, if_neg h3, if_neg h4, if_neg h5]

/-- Witness for the amended C4 at the concrete mode `bogus` and stream
index 7. -/
theorem unrecognized_mode_emits_default_witness :
    (Settings.mk "bogus" "31" "2M" "good" "0").mode ∉
      ["average_bitrate", "constant_quality", "constrained_quality",
       "constant_bitrate", "lossless"] ∧
    custom_stream_mapping ⟨"bogus", "31", "2M", "good", "0"⟩ ⟨some "h264", "video"⟩ 7 =
      { stream_mapping := ["-map", "0:v:" ++ toString 7]
        stream_encoding := ["-c:v:" ++ toString 7, "libvpx-vp9", "-b:v", "2M"] } :=
  ⟨by decide,
   unrecognized_mode_emits_default ⟨"bogus", "31", "2M", "good", "0"⟩
     ⟨some "h264", "video"⟩ 7 (by decide)⟩

/-- C5: for each of the five selectable modes the produced fragment
carries exactly the documented parameter set: average_bitrate the
configured target bitrate; constant_quality the crf with bitrate forced to
0; constrained_quality the crf with the configured bitrate as ceiling;
constant_bitrate minrate, maxrate and target bitrate all equal to the
configured bitrate; lossless the lossless flag with neither crf nor rate
flags; and every mode passes deadline and cpu_used through verbatim. -/
theorem five_modes_exact_args (s : Settings) (si : StreamInfo) (i : Nat) :
    (custom_stream_mapping { s with mode := "average_bitrate" } si i).stream_encoding =
      ["-c:v:" ++ toString i, "libvpx-vp9", "-b:v:" ++ toString i, s.bitrate,
       "-threads", "8", "-row-mt", "1", "-deadline", s.deadline,
       "-cpu-used", s.cpu_used] ∧
    (custom_stream_mapping { s with mode := "constant_quality" } si i).stream_encoding =
      ["-c:v:" ++ toString i, "libvpx-vp9", "-crf", s.crf,
       "-b:v:" ++ toString i, "0", "-threads", "8", "-row-mt", "1",
       "-deadline", s.deadline, "-cpu-used", s.cpu_used] ∧
    (custom_stream_mapping { s with mode := "constrained_quality" } si i).stream_encoding =
      ["-c:v:" ++ toString i, "libvpx-vp9", "-crf", s.crf,
       "-b:v:" ++ toString i, s.bitrate, "-threads", "8", "-row-mt", "1",
       "-deadline", s.deadline, "-cpu-used", s.cpu_used] ∧
    (custom_stream_mapping { s with mode := "constant_bitrate" } si i).stream_encoding =
      ["-c:v:" ++ toString i, "libvpx-vp9", "-minrate", s.bitrate,
       "-maxrate", s.bitrate, "-b:v:" ++ toString i, s.bitrate,
       "-threads", "8", "-row-mt", "1", "-deadline", s.deadline,
       "-cpu-used", s.cpu_used] ∧
    (custom_stream_mapping { s with mode := "lossless" } si i).stream_encoding =
      ["-c:v:" ++ toString i, "libvpx-vp9", "-lossless", "1",
       "-threads", "8", "-row-mt", "1", "-deadline", s.deadline,
       "-cpu-used", s.cpu_used] := by
  refine ⟨?_, ?_, ?_, ?_, ?_⟩ <;> rfl

/-- C6: for every settings object (any mode, the fallback included), every
stream and every stream index, the encoder argument list starts with the
codec-selection pair, and the result of the pure mapping function is
deterministic: a second call on identical inputs yields the identical
fragment. -/
theorem encoder_args_start_with_codec_pair (s : Settings) (si : StreamInfo) (i : Nat) :
    (custom_stream_mapping s si i).stream_encoding.take 2 =
      ["-c:v:" ++ toString i, "libvpx-vp9"] ∧
    custom_stream_mapping s si i = custom_stream_mapping s si i := by
  refine ⟨?_, rfl⟩
  unfold custom_stream_mapping
  dsimp only
  split_ifs <;> rfl

/-- C7: whenever the worker builds a plan, the final output path is the
root of the caller-supplied output target concatenated with the extension
of the input file, so with input and output extensions present the output
keeps the input container. -/
theorem worker_output_keeps_input_extension (probe : String → List StreamInfo)
    (s : Settings) (data : WorkerData)
    (hneed : streams_need_processing (probe data.file_in) = .ok true)
    (hin : (splitext data.file_in).2 ≠ "")
    (hout : (splitext data.file_out).2 ≠ "") :
    (on_worker_process probe s data).toOption.map WorkerData.file_out =
      some ((splitext data.file_out).1 ++ (splitext data.file_in).2) := by
  simp only [on_worker_process]
  rw [hneed]
  rfl

/-- Witness for C7: input movie.mkv and output target movie.mp4 give the
output path movie.mkv, which ends in the input extension .mkv. -/
theorem worker_output_keeps_input_extension_witness :
    streams_need_processing (probeH264 wdataMovie.file_in) = .ok true ∧
    (splitext wdataMovie.file_in).2 ≠ "" ∧
    (splitext wdataMovie.file_out).2 ≠ "" ∧
    (on_worker_process probeH264 defaultSettings wdataMovie).toOption.map
        WorkerData.file_out =
      some ((splitext wdataMovie.file_out).1 ++ (splitext wdataMovie.file_in).2) ∧
    (splitext wdataMovie.file_out).1 ++ (splitext wdataMovie.file_in).2 = "movie.mkv" :=
  ⟨rfl, by decide, by decide,
   worker_output_keeps_input_extension probeH264 defaultSettings wdataMovie
     rfl (by decide) (by decide),
   by decide⟩

/-- C8: when no stream of the probed file needs conversion, the worker
returns the data with `exec_ffmpeg` false and every other key (the ffmpeg
argument list and the output path included) untouched, so the caller does
not invoke an encoder. -/
theorem empty_selection_no_transcode (probe : String → List StreamInfo)
    (s : Settings) (data : WorkerData)
    (hempty : streams_need_processing (probe data.file_in) = .ok false) :
    on_worker_process probe s data = .ok { data with exec_ffmpeg := false } := by
  simp only [on_worker_process]
  rw [hempty]

/-- Witness for C8 on a probe that yields no streams, with the incoming
`exec_ffmpeg` true to observe the reset. -/
theorem empty_selection_no_transcode_witness :
    streams_need_processing (probeNone wdataExecTrue.file_in) = .ok false ∧
    on_worker_process probeNone defaultSettings wdataExecTrue =
      .ok { wdataExecTrue with exec_ffmpeg := false } :=
  ⟨rfl, empty_selection_no_transcode probeNone defaultSettings wdataExecTrue rfl⟩

/-- C9 counterexample: for the extensionless input path movie (probed as
one h264 video stream) the worker does not fail closed: it still builds a
plan, marking `exec_ffmpeg` true and silently emitting the extensionless
output path movie. -/
theorem missing_extension_plan_still_built :
    (splitext "movie").2 = "" ∧
    on_worker_process probeH264 defaultSettings wdataNoExt =
      .ok { wdataNoExt with
            exec_ffmpeg := true
            ffmpeg_args := ["-i", "movie", "-hide_banner", "-loglevel", "info",
              "-map", "0:v:0", "-c:v:0", "libvpx-vp9", "-b:v:0", "2M",
              "-threads", "8", "-row-mt", "1", "-deadline", "good",
              "-cpu-used", "0", "-y", "movie"]
            file_out := "movie" } :=
  ⟨by decide, rfl⟩

/-- C9 amended: when the input or output path lacks a parseable extension
and some stream needs conversion, the worker still produces a plan:
`exec_ffmpeg` is set true and the output path is the output target root
concatenated with the (possibly empty) input extension; no error is
raised and no fail-closed branch exists. -/
theorem missing_extension_worker_proceeds (probe : String → List StreamInfo)
    (s : Settings) (data : WorkerData)
    (hneed : streams_need_processing (probe data.file_in) = .ok true)
    (hnoext : (splitext data.file_in).2 = "" ∨ (splitext data.file_out).2 = "") :
    (on_worker_process probe s data).toOption.map
        (fun d => (d.exec_ffmpeg, d.file_out)) =
      some (true, (splitext data.file_out).1 ++ (splitext data.file_in).2) := by
  simp only [on_worker_process]
  rw [hneed]
  rfl

/-- Witness for the amended C9 at the extensionless input path movie. -/
theorem missing_extension_worker_proceeds_witness :
    streams_need_processing (probeH264 wdataNoExt.file_in) = .ok true ∧
    ((splitext wdataNoExt.file_in).2 = "" ∨ (splitext wdataNoExt.file_out).2 = "") ∧
    (on_worker_process probeH264 defaultSettings wdataNoExt).toOption.map
        (fun d => (d.exec_ffmpeg, d.file_out)) =
      some (true, (splitext wdataNoExt.file_out).1 ++ (splitext wdataNoExt.file_in).2) :=
  ⟨rfl, by decide,
   missing_extension_worker_proceeds probeH264 defaultSettings wdataNoExt
     rfl (by decide)⟩

/-- C10: the library file test either returns the data unchanged, or
returns it with `add_file_to_pending_tasks` set to true and no other key
modified, or propagates the probe-test exception; and when no stream needs
processing the data comes back exactly as the host supplied it, the flag
included. -/
theorem library_test_only_sets_pending_flag (probe : String → List StreamInfo)
    (data : LibraryTestData) :
    (on_library_management_file_test probe data = .ok data ∨
     on_library_management_file_test probe data =
       .ok { data with add_file_to_pending_tasks := true } ∨
     on_library_management_file_test probe data = .error .attributeError) ∧
    (streams_need_processing (probe data.path) = .ok false →
      on_library_management_file_test probe data = .ok data) := by
  unfold on_library_management_file_test
  rcases hsp : streams_need_processing (probe data.path) with e | b
  · cases e
    exact ⟨Or.inr (Or.inr rfl), fun hf => nomatch hf⟩
  · cases b
    · exact ⟨Or.inl rfl, fun _ => rfl⟩
    · exact ⟨Or.inr (Or.inl rfl), fun hf => nomatch hf⟩

/-- Witness for C10 on a concrete probe with no streams: the data object
comes back exactly as supplied. -/
theorem library_test_only_sets_pending_flag_witness :
    streams_need_processing (probeNone dataLib.path) = .ok false ∧
    on_library_management_file_test probeNone dataLib = .ok dataLib :=
  ⟨rfl, (library_test_only_sets_pending_flag probeNone dataLib).2 rfl⟩
